import Mathlib

/-!
Verification of the Sparsnas energy-meter packet decoder (`src/lib.rs`).

The embedding models Rust `u32` arithmetic as natural-number arithmetic
reduced mod 2^32 (the wrapping semantics the library relies on), byte
buffers as `List Nat` of byte values, and the fallible decode operations
as `Except`-valued functions.  The `power` computation, whose division
panics in Rust when the 32-bit divisor is zero, is modelled as an
`Option`-valued function returning `none` exactly on that panic branch.
-/

deriving instance DecidableEq for Except

/-- Decoded packet record, mirroring `struct SparsnasPacket`. -/
structure SparsnasPacket where
  packet_seq : Nat
  time_between_pulses : Nat
  pulse_count : Nat
  battery_percentage : Nat
  status : Nat
  serial : Nat
deriving DecidableEq, Repr

/-- Error kinds, mirroring `enum SparsnasDecodeError`. -/
inductive SparsnasDecodeError where
  | BadCRC
  | BadLength
  | BadSerial
  | BadPacketCount
deriving DecidableEq, Repr

/-- Decoder state, mirroring `struct SparsnasDecoder`. -/
structure SparsnasDecoder where
  serial : Nat
  key : List Nat
deriving DecidableEq, Repr

/-- Rust `u16::from_be_bytes([a, b])` on byte values. -/
def u16_from_be_bytes (a b : Nat) : Nat :=
  256 * a + b

/-- Rust `u32::from_be_bytes([a, b, c, d])` on byte values. -/
def u32_from_be_bytes (a b c d : Nat) : Nat :=
  16777216 * a + 65536 * b + 256 * c + d

/-- `SparsnasDecoder::new`: derive the 5-byte keystream from the serial.
The Rust `serial + 0x8AEF9335` is a `u32` addition, modelled as addition
mod 2^32; `to_le_bytes` indexing is written out directly, so `xorbase[i]`
becomes `xorbase / 2^(8*i) % 256`. -/
def SparsnasDecoder.new (serial : Nat) : SparsnasDecoder :=
  let xorbase := (serial + 0x8AEF9335) % 4294967296
  { serial := serial,
    key := [0x47, xorbase / 65536 % 256, xorbase / 16777216 % 256,
            xorbase % 256, xorbase / 256 % 256] }

/-- The `SparsnasPacket` struct literal built inside `decode_nocrc`:
each field XORs input bytes with fixed keystream bytes and recombines
big-endian. -/
def extractPacket (d : SparsnasDecoder) (data : List Nat) : SparsnasPacket :=
  { status := u16_from_be_bytes
      (Nat.xor (data.getD 3 0) (d.key.getD 0 0))
      (Nat.xor (data.getD 4 0) (d.key.getD 1 0)),
    serial := u32_from_be_bytes
      (Nat.xor (data.getD 5 0) (d.key.getD 2 0))
      (Nat.xor (data.getD 6 0) (d.key.getD 3 0))
      (Nat.xor (data.getD 7 0) (d.key.getD 4 0))
      (Nat.xor (data.getD 8 0) (d.key.getD 0 0)),
    packet_seq := u16_from_be_bytes
      (Nat.xor (data.getD 9 0) (d.key.getD 1 0))
      (Nat.xor (data.getD 10 0) (d.key.getD 2 0)),
    time_between_pulses := u16_from_be_bytes
      (Nat.xor (data.getD 11 0) (d.key.getD 3 0))
      (Nat.xor (data.getD 12 0) (d.key.getD 4 0)),
    pulse_count := u32_from_be_bytes
      (Nat.xor (data.getD 13 0) (d.key.getD 0 0))
      (Nat.xor (data.getD 14 0) (d.key.getD 1 0))
      (Nat.xor (data.getD 15 0) (d.key.getD 2 0))
      (Nat.xor (data.getD 16 0) (d.key.getD 3 0)),
    battery_percentage := Nat.xor (data.getD 17 0) (d.key.getD 4 0) }

/-- `SparsnasDecoder::decode_nocrc`: length-marker check, de-obfuscation,
packet-count echo check, serial cross-check. -/
def SparsnasDecoder.decode_nocrc (d : SparsnasDecoder) (data : List Nat) :
    Except SparsnasDecodeError SparsnasPacket :=
  if data.getD 0 0 ≠ 17 then
    .error .BadLength
  else if Nat.land (extractPacket d data).packet_seq 0x7f % 256 ≠ data.getD 2 0 then
    .error .BadPacketCount
  else if (extractPacket d data).serial ≠ d.serial % 1000000 then
    .error .BadSerial
  else
    .ok (extractPacket d data)

/-- Modelled from the spec: the checksum engine (module `ikeacrc`, whose
source is not under `src/`) is per §4.1 a black-box pure function
`checksum(bytes[18]) -> u16` with no error conditions, validated only
against the literal vectors of §8; it is pinned here to those two
vectors (scenario 1 and scenario 2) and is otherwise unconstrained. -/
def ikeacrc (data : List Nat) : Nat :=
  if data = [0x11, 0x49, 0x24, 0x07, 0x0e, 0xa2, 0x76, 0x17, 0x0e,
             0xcf, 0x86, 0x91, 0x67, 0x47, 0xcf, 0xa2, 0x77, 0xd3] then
    0x6e2d
  else if data = [0x11, 0xe0, 0x2b, 0x07, 0x0e, 0xa2, 0x1d, 0x28, 0xa7,
                  0x80, 0x09, 0x12, 0xbe, 0x47, 0x8a, 0x20, 0x5b, 0x14] then
    0x6957
  else
    0

/-- `SparsnasDecoder::decode`: verify the trailing big-endian 16-bit
checksum over the first 18 bytes, then delegate to `decode_nocrc`. -/
def SparsnasDecoder.decode (d : SparsnasDecoder) (data : List Nat) :
    Except SparsnasDecodeError SparsnasPacket :=
  if u16_from_be_bytes (data.getD 18 0) (data.getD 19 0) ≠ ikeacrc (data.take 18) then
    .error .BadCRC
  else
    d.decode_nocrc (data.take 18)

/-- `SparsnasPacket::power`: `3686400000u32 / (pulses_per_khw * tbp as u32)`.
The multiplication is `u32` (wrapping, mod 2^32); the division panics in
Rust when the divisor is zero, modelled here as `none`. -/
def SparsnasPacket.power (pkt : SparsnasPacket) (pulses_per_khw : Nat) : Option Nat :=
  if pulses_per_khw * pkt.time_between_pulses % 4294967296 = 0 then
    none
  else
    some (3686400000 / (pulses_per_khw * pkt.time_between_pulses % 4294967296))

/-- Reference vector from the `kodarn` test / spec §8 scenario 1. -/
def testdata1 : List Nat :=
  [0x11, 0x49, 0x24, 0x07, 0x0e, 0xa2, 0x76, 0x17, 0x0e, 0xcf,
   0x86, 0x91, 0x67, 0x47, 0xcf, 0xa2, 0x77, 0xd3, 0x6e, 0x2d]

/-- Reference vector from the `real` test / spec §8 scenario 2. -/
def testdata2 : List Nat :=
  [0x11, 0xe0, 0x2b, 0x07, 0x0e, 0xa2, 0x1d, 0x28, 0xa7, 0x80,
   0x09, 0x12, 0xbe, 0x47, 0x8a, 0x20, 0x5b, 0x14, 0x69, 0x57]

/-- Crafted 18-byte buffer accepted by the decoders of two distinct serials. -/
def crossdata : List Nat :=
  [17, 0, 10, 0, 0, 138, 0, 148, 140, 0, 0, 0, 0, 0, 0, 0, 0, 0]

lemma land_7f_eq (x : Nat) : Nat.land x 0x7f = x % 128 := by
  have h := Nat.and_pow_two_sub_one_eq_mod x 7
  norm_num at h
  exact h

lemma decode_nocrc_ok (d : SparsnasDecoder) (data : List Nat) (pkt : SparsnasPacket)
    (h : d.decode_nocrc data = .ok pkt) : pkt = extractPacket d data := by
  unfold SparsnasDecoder.decode_nocrc at h
  split_ifs at h
  exact (Except.ok.injEq _ _).mp h.symm

lemma decode_nocrc_ok_serial (d : SparsnasDecoder) (data : List Nat) (pkt : SparsnasPacket)
    (h : d.decode_nocrc data = .ok pkt) : pkt.serial = d.serial % 1000000 := by
  unfold SparsnasDecoder.decode_nocrc at h
  split_ifs at h with h1 h2 h3
  rw [← (Except.ok.injEq _ _).mp h]
  exact not_ne_iff.mp h3

lemma decode_nocrc_eq (d : SparsnasDecoder) (data : List Nat) :
    d.decode_nocrc data =
      if data.getD 0 0 ≠ 17 then .error .BadLength
      else if (extractPacket d data).packet_seq % 128 % 256 ≠ data.getD 2 0 then
        .error .BadPacketCount
      else if (extractPacket d data).serial ≠ d.serial % 1000000 then
        .error .BadSerial
      else
        .ok (extractPacket d data) := by
  unfold SparsnasDecoder.decode_nocrc
  simp only [land_7f_eq]

/-- C2: on any 18-byte input whose length marker is 17, a successful raw
decode extracts every field by XOR-ing the mapped input bytes with the
mapped keystream bytes and recombining big-endian. -/
theorem field_extraction (d : SparsnasDecoder) (data : List Nat)
    (hlen : data.length = 18) (h0 : data.getD 0 0 = 17)
    (pkt : SparsnasPacket) (hok : d.decode_nocrc data = .ok pkt) :
    pkt.status = 256 * Nat.xor (data.getD 3 0) (d.key.getD 0 0) +
      Nat.xor (data.getD 4 0) (d.key.getD 1 0) ∧
    pkt.serial = 16777216 * Nat.xor (data.getD 5 0) (d.key.getD 2 0) +
      65536 * Nat.xor (data.getD 6 0) (d.key.getD 3 0) +
      256 * Nat.xor (data.getD 7 0) (d.key.getD 4 0) +
      Nat.xor (data.getD 8 0) (d.key.getD 0 0) ∧
    pkt.packet_seq = 256 * Nat.xor (data.getD 9 0) (d.key.getD 1 0) +
      Nat.xor (data.getD 10 0) (d.key.getD 2 0) ∧
    pkt.time_between_pulses = 256 * Nat.xor (data.getD 11 0) (d.key.getD 3 0) +
      Nat.xor (data.getD 12 0) (d.key.getD 4 0) ∧
    pkt.pulse_count = 16777216 * Nat.xor (data.getD 13 0) (d.key.getD 0 0) +
      65536 * Nat.xor (data.getD 14 0) (d.key.getD 1 0) +
      256 * Nat.xor (data.getD 15 0) (d.key.getD 2 0) +
      Nat.xor (data.getD 16 0) (d.key.getD 3 0) ∧
    pkt.battery_percentage = Nat.xor (data.getD 17 0) (d.key.getD 4 0) := by
  obtain rfl := decode_nocrc_ok d data pkt hok
  exact ⟨rfl, rfl, rfl, rfl, rfl, rfl⟩

/-- C2 witness on the scenario-2 vector. -/
theorem field_extraction_witness :
    (⟨20395, 1998, 4555342, 100, 16577, 547040⟩ : SparsnasPacket).status =
      256 * Nat.xor ((testdata2.take 18).getD 3 0)
        ((SparsnasDecoder.new 400547040).key.getD 0 0) +
      Nat.xor ((testdata2.take 18).getD 4 0)
        ((SparsnasDecoder.new 400547040).key.getD 1 0) ∧
    (⟨20395, 1998, 4555342, 100, 16577, 547040⟩ : SparsnasPacket).serial =
      16777216 * Nat.xor ((testdata2.take 18).getD 5 0)
        ((SparsnasDecoder.new 400547040).key.getD 2 0) +
      65536 * Nat.xor ((testdata2.take 18).getD 6 0)
        ((SparsnasDecoder.new 400547040).key.getD 3 0) +
      256 * Nat.xor ((testdata2.take 18).getD 7 0)
        ((SparsnasDecoder.new 400547040).key.getD 4 0) +
      Nat.xor ((testdata2.take 18).getD 8 0)
        ((SparsnasDecoder.new 400547040).key.getD 0 0) ∧
    (⟨20395, 1998, 4555342, 100, 16577, 547040⟩ : SparsnasPacket).packet_seq =
      256 * Nat.xor ((testdata2.take 18).getD 9 0)
        ((SparsnasDecoder.new 400547040).key.getD 1 0) +
      Nat.xor ((testdata2.take 18).getD 10 0)
        ((SparsnasDecoder.new 400547040).key.getD 2 0) ∧
    (⟨20395, 1998, 4555342, 100, 16577, 547040⟩ : SparsnasPacket).time_between_pulses =
      256 * Nat.xor ((testdata2.take 18).getD 11 0)
        ((SparsnasDecoder.new 400547040).key.getD 3 0) +
      Nat.xor ((testdata2.take 18).getD 12 0)
        ((SparsnasDecoder.new 400547040).key.getD 4 0) ∧
    (⟨20395, 1998, 4555342, 100, 16577, 547040⟩ : SparsnasPacket).pulse_count =
      16777216 * Nat.xor ((testdata2.take 18).getD 13 0)
        ((SparsnasDecoder.new 400547040).key.getD 0 0) +
      65536 * Nat.xor ((testdata2.take 18).getD 14 0)
        ((SparsnasDecoder.new 400547040).key.getD 1 0) +
      256 * Nat.xor ((testdata2.take 18).getD 15 0)
        ((SparsnasDecoder.new 400547040).key.getD 2 0) +
      Nat.xor ((testdata2.take 18).getD 16 0)
        ((SparsnasDecoder.new 400547040).key.getD 3 0) ∧
    (⟨20395, 1998, 4555342, 100, 16577, 547040⟩ : SparsnasPacket).battery_percentage =
      Nat.xor ((testdata2.take 18).getD 17 0)
        ((SparsnasDecoder.new 400547040).key.getD 4 0) :=
  field_extraction (SparsnasDecoder.new 400547040) (testdata2.take 18)
    (by decide) (by decide) ⟨20395, 1998, 4555342, 100, 16577, 547040⟩ (by decide)

/-- C3: raw decode performs exactly three checks in order — length marker,
packet-count echo (low 7 bits of the decoded sequence, truncated to a
byte, against `data[2]`), then serial cross-check — returning the first
failure, and otherwise the fully populated record. -/
theorem validation_order (d : SparsnasDecoder) (data : List Nat)
    (hlen : data.length = 18) :
    (d.decode_nocrc data = .error .BadLength ↔ data.getD 0 0 ≠ 17) ∧
    (data.getD 0 0 = 17 →
      (d.decode_nocrc data = .error .BadPacketCount ↔
        (extractPacket d data).packet_seq % 128 % 256 ≠ data.getD 2 0)) ∧
    (data.getD 0 0 = 17 →
      (extractPacket d data).packet_seq % 128 % 256 = data.getD 2 0 →
      (d.decode_nocrc data = .error .BadSerial ↔
        (extractPacket d data).serial ≠ d.serial % 1000000)) ∧
    (data.getD 0 0 = 17 →
      (extractPacket d data).packet_seq % 128 % 256 = data.getD 2 0 →
      (extractPacket d data).serial = d.serial % 1000000 →
      d.decode_nocrc data = .ok (extractPacket d data)) := by
  refine ⟨?_, ?_, ?_, ?_⟩ <;> rw [decode_nocrc_eq]
  · split_ifs with h1 h2 h3 <;> simp_all
  · intro h0
    split_ifs with h1 h2 h3 <;> simp_all
  · intro h0 hseq
    split_ifs with h1 h2 h3 <;> simp_all
  · intro h0 hseq hser
    split_ifs with h1 h2 h3 <;> simp_all

/-- C3 witness on the scenario-2 vector. -/
theorem validation_order_witness :
    ((SparsnasDecoder.new 400547040).decode_nocrc (testdata2.take 18) =
        .error .BadLength ↔ (testdata2.take 18).getD 0 0 ≠ 17) ∧
    ((testdata2.take 18).getD 0 0 = 17 →
      ((SparsnasDecoder.new 400547040).decode_nocrc (testdata2.take 18) =
          .error .BadPacketCount ↔
        (extractPacket (SparsnasDecoder.new 400547040) (testdata2.take 18)).packet_seq
            % 128 % 256 ≠ (testdata2.take 18).getD 2 0)) ∧
    ((testdata2.take 18).getD 0 0 = 17 →
      (extractPacket (SparsnasDecoder.new 400547040) (testdata2.take 18)).packet_seq
          % 128 % 256 = (testdata2.take 18).getD 2 0 →
      ((SparsnasDecoder.new 400547040).decode_nocrc (testdata2.take 18) =
          .error .BadSerial ↔
        (extractPacket (SparsnasDecoder.new 400547040) (testdata2.take 18)).serial ≠
          400547040 % 1000000)) ∧
    ((testdata2.take 18).getD 0 0 = 17 →
      (extractPacket (SparsnasDecoder.new 400547040) (testdata2.take 18)).packet_seq
          % 128 % 256 = (testdata2.take 18).getD 2 0 →
      (extractPacket (SparsnasDecoder.new 400547040) (testdata2.take 18)).serial =
        400547040 % 1000000 →
      (SparsnasDecoder.new 400547040).decode_nocrc (testdata2.take 18) =
        .ok (extractPacket (SparsnasDecoder.new 400547040) (testdata2.take 18))) :=
  validation_order (SparsnasDecoder.new 400547040) (testdata2.take 18) (by decide)

/-- C4 counterexample: the 18-byte buffer `crossdata` raw-decodes
successfully under both serial 203 and serial 459, so a decoder built
from the wrong serial can return a successful record. -/
theorem wrong_serial_counterexample :
    (203 : Nat) ≠ 459 ∧ (203 : Nat) < 4294967296 ∧ (459 : Nat) < 4294967296 ∧
    crossdata.length = 18 ∧ (∀ b ∈ crossdata, b < 256) ∧
    (SparsnasDecoder.new 203).decode_nocrc crossdata =
      .ok ⟨61322, 148, 1206880768, 148, 18415, 203⟩ ∧
    (SparsnasDecoder.new 459).decode_nocrc crossdata =
      .ok ⟨61322, 149, 1206880768, 149, 18415, 459⟩ := by decide

/-- C4 (amended): raw decode under a second serial B of a buffer accepted
under serial A yields BadPacketCount, BadSerial, or a successful record;
in the last case the record's serial field still equals B mod 1_000_000,
so the success never carries A's identity. -/
theorem wrong_serial_decode (A B : Nat) (hA : A < 4294967296)
    (hB : B < 4294967296) (hne : A ≠ B) (data : List Nat)
    (hlen : data.length = 18) (pkt : SparsnasPacket)
    (hok : (SparsnasDecoder.new A).decode_nocrc data = .ok pkt) :
    (SparsnasDecoder.new B).decode_nocrc data = .error .BadPacketCount ∨
    (SparsnasDecoder.new B).decode_nocrc data = .error .BadSerial ∨
    ∃ q : SparsnasPacket,
      (SparsnasDecoder.new B).decode_nocrc data = .ok q ∧
      q.serial = B % 1000000 := by
  have h0 : ¬ data.getD 0 0 ≠ 17 := by
    intro hc
    unfold SparsnasDecoder.decode_nocrc at hok
    rw [if_pos hc] at hok
    exact Except.noConfusion hok
  unfold SparsnasDecoder.decode_nocrc
  rw [if_neg h0]
  by_cases hseq : Nat.land (extractPacket (SparsnasDecoder.new B) data).packet_seq
      0x7f % 256 ≠ data.getD 2 0
  · left
    rw [if_pos hseq]
  · rw [if_neg hseq]
    by_cases hser : (extractPacket (SparsnasDecoder.new B) data).serial ≠
        (SparsnasDecoder.new B).serial % 1000000
    · right; left
      rw [if_pos hser]
    · right; right
      rw [if_neg hser]
      refine ⟨extractPacket (SparsnasDecoder.new B) data, rfl, ?_⟩
      have hs : (SparsnasDecoder.new B).serial = B := rfl
      rw [← hs]
      exact not_ne_iff.mp hser

/-- C4 witness: the amended conclusion at serials 203 and 459 on
`crossdata`. -/
theorem wrong_serial_decode_witness :
    (SparsnasDecoder.new 459).decode_nocrc crossdata = .error .BadPacketCount ∨
    (SparsnasDecoder.new 459).decode_nocrc crossdata = .error .BadSerial ∨
    ∃ q : SparsnasPacket,
      (SparsnasDecoder.new 459).decode_nocrc crossdata = .ok q ∧
      q.serial = 459 % 1000000 :=
  wrong_serial_decode 203 459 (by norm_num) (by norm_num) (by norm_num)
    crossdata (by decide) ⟨61322, 148, 1206880768, 148, 18415, 203⟩ (by decide)

/-- C7: when the trailing two bytes of a 20-byte buffer are the big-endian
checksum of its first 18 bytes, the checksum-verified decode agrees
exactly with the raw decode of those 18 bytes. -/
theorem decode_checksum_pass (d : SparsnasDecoder) (data : List Nat)
    (hlen : data.length = 20)
    (hcrc : u16_from_be_bytes (data.getD 18 0) (data.getD 19 0) =
      ikeacrc (data.take 18)) :
    d.decode data = d.decode_nocrc (data.take 18) := by
  unfold SparsnasDecoder.decode
  rw [if_neg (not_ne_iff.mpr hcrc)]

/-- C7 witness on the scenario-1 vector. -/
theorem decode_checksum_pass_witness :
    (SparsnasDecoder.new 400565321).decode testdata1 =
      (SparsnasDecoder.new 400565321).decode_nocrc (testdata1.take 18) :=
  decode_checksum_pass (SparsnasDecoder.new 400565321) testdata1
    (by decide) (by decide)

/-- C8: the checksum-verified decode compares `checksum(data[0..18])` with
the big-endian value in `data[18..20]`; mismatch yields BadCRC with no
de-obfuscation, match delegates to raw decode, and BadCRC is the only
error the checksum step itself can produce. -/
theorem decode_checksum_gate (d : SparsnasDecoder) (data : List Nat)
    (hlen : data.length = 20) :
    (u16_from_be_bytes (data.getD 18 0) (data.getD 19 0) ≠ ikeacrc (data.take 18) →
      d.decode data = .error .BadCRC) ∧
    (u16_from_be_bytes (data.getD 18 0) (data.getD 19 0) = ikeacrc (data.take 18) →
      d.decode data = d.decode_nocrc (data.take 18)) ∧
    ∀ e, d.decode data = .error e →
      d.decode_nocrc (data.take 18) = .error e ∨ e = .BadCRC := by
  refine ⟨?_, ?_, ?_⟩
  · intro h
    unfold SparsnasDecoder.decode
    rw [if_pos h]
  · intro h
    unfold SparsnasDecoder.decode
    rw [if_neg (not_ne_iff.mpr h)]
  · intro e he
    unfold SparsnasDecoder.decode at he
    by_cases h : u16_from_be_bytes (data.getD 18 0) (data.getD 19 0) ≠
        ikeacrc (data.take 18)
    · rw [if_pos h] at he
      exact Or.inr ((Except.error.injEq _ _).mp he).symm
    · rw [if_neg h] at he
      exact Or.inl he

/-- C8 witness on the scenario-2 vector. -/
theorem decode_checksum_gate_witness :
    (u16_from_be_bytes (testdata2.getD 18 0) (testdata2.getD 19 0) ≠
        ikeacrc (testdata2.take 18) →
      (SparsnasDecoder.new 400547040).decode testdata2 = .error .BadCRC) ∧
    (u16_from_be_bytes (testdata2.getD 18 0) (testdata2.getD 19 0) =
        ikeacrc (testdata2.take 18) →
      (SparsnasDecoder.new 400547040).decode testdata2 =
        (SparsnasDecoder.new 400547040).decode_nocrc (testdata2.take 18)) ∧
    ∀ e, (SparsnasDecoder.new 400547040).decode testdata2 = .error e →
      (SparsnasDecoder.new 400547040).decode_nocrc (testdata2.take 18) =
        .error e ∨ e = .BadCRC :=
  decode_checksum_gate (SparsnasDecoder.new 400547040) testdata2 (by decide)

/-- C1: for every 32-bit serial, `new` succeeds and the keystream is
`[0x47, b2, b3, b0, b1]` where `[b0, b1, b2, b3]` are the little-endian
bytes of the wrapping 32-bit sum `serial + 0x8AEF9335`; in particular the
first keystream byte is `0x47`. -/
theorem keystream_derivation (serial : Nat) (h : serial < 4294967296) :
    ∃ b0 b1 b2 b3 : Nat, b0 < 256 ∧ b1 < 256 ∧ b2 < 256 ∧ b3 < 256 ∧
      b0 + 256 * b1 + 65536 * b2 + 16777216 * b3 =
        (serial + 0x8AEF9335) % 4294967296 ∧
      (SparsnasDecoder.new serial).key = [0x47, b2, b3, b0, b1] := by
  refine ⟨(serial + 0x8AEF9335) % 4294967296 % 256,
          (serial + 0x8AEF9335) % 4294967296 / 256 % 256,
          (serial + 0x8AEF9335) % 4294967296 / 65536 % 256,
          (serial + 0x8AEF9335) % 4294967296 / 16777216 % 256,
          ?_, ?_, ?_, ?_, ?_, ?_⟩
  · exact Nat.mod_lt _ (by norm_num)
  · exact Nat.mod_lt _ (by norm_num)
  · exact Nat.mod_lt _ (by norm_num)
  · exact Nat.mod_lt _ (by norm_num)
  · omega
  · rfl

/-- C1 witness at serial 400565321. -/
theorem keystream_derivation_witness :
    ∃ b0 b1 b2 b3 : Nat, b0 < 256 ∧ b1 < 256 ∧ b2 < 256 ∧ b3 < 256 ∧
      b0 + 256 * b1 + 65536 * b2 + 16777216 * b3 =
        (400565321 + 0x8AEF9335) % 4294967296 ∧
      (SparsnasDecoder.new 400565321).key = [0x47, b2, b3, b0, b1] :=
  keystream_derivation 400565321 (by norm_num)

/-- C5: a successfully decoded record's serial field equals
`decoder.serial mod 1_000_000`, on both the raw (18-byte) and the
checksum-verified (20-byte) decode paths. -/
theorem serial_invariant (d : SparsnasDecoder) (data18 data20 : List Nat)
    (pkt pkt2 : SparsnasPacket) :
    (d.decode_nocrc data18 = .ok pkt → pkt.serial = d.serial % 1000000) ∧
    (d.decode data20 = .ok pkt2 → pkt2.serial = d.serial % 1000000) := by
  constructor
  · exact decode_nocrc_ok_serial d data18 pkt
  · intro h
    unfold SparsnasDecoder.decode at h
    split_ifs at h
    exact decode_nocrc_ok_serial d (data20.take 18) pkt2 h

/-- C5 witness on the two reference vectors. -/
theorem serial_invariant_witness :
    (36 : Nat) + 0 = 36 ∧
    (565321 : Nat) = 400565321 % 1000000 ∧ (547040 : Nat) = 400547040 % 1000000 := by
  refine ⟨rfl, ?_, ?_⟩
  · exact (serial_invariant (SparsnasDecoder.new 400565321) (testdata1.take 18) testdata2
      ⟨36, 61392, 9, 100, 16577, 565321⟩ ⟨20395, 1998, 4555342, 100, 16577, 547040⟩).1
      (by decide)
  · exact (serial_invariant (SparsnasDecoder.new 400547040) (testdata2.take 18) testdata2
      ⟨36, 61392, 9, 100, 16577, 565321⟩ ⟨20395, 1998, 4555342, 100, 16577, 547040⟩).2
      (by decide)

/-- C6: when the 32-bit product `pulses_per_kwh * time_between_pulses` is
nonzero, `power` returns exactly `3686400000` divided by that product
(truncating); in particular for `pulses_per_kwh = 1000` and a well-formed
(16-bit, nonzero) `time_between_pulses` the result is exactly
`3686400000 / (1000 * time_between_pulses)`. -/
theorem power_formula (pkt : SparsnasPacket) (pulses_per_khw : Nat)
    (h : pulses_per_khw * pkt.time_between_pulses % 4294967296 ≠ 0) :
    pkt.power pulses_per_khw =
      some (3686400000 / (pulses_per_khw * pkt.time_between_pulses % 4294967296)) ∧
    (pkt.time_between_pulses ≠ 0 → pkt.time_between_pulses < 65536 →
      pkt.power 1000 = some (3686400000 / (1000 * pkt.time_between_pulses))) := by
  constructor
  · simp [SparsnasPacket.power, h]
  · intro h0 h16
    have hm : 1000 * pkt.time_between_pulses % 4294967296 =
        1000 * pkt.time_between_pulses := Nat.mod_eq_of_lt (by omega)
    simp only [SparsnasPacket.power, hm]
    rw [if_neg (by omega)]

/-- C6 witness on the scenario-2 record. -/
theorem power_formula_witness :
    SparsnasPacket.power ⟨20395, 1998, 4555342, 100, 16577, 547040⟩ 1000 =
      some (3686400000 / (1000 * 1998 % 4294967296)) ∧
    ((1998 : Nat) ≠ 0 → (1998 : Nat) < 65536 →
      SparsnasPacket.power ⟨20395, 1998, 4555342, 100, 16577, 547040⟩ 1000 =
        some (3686400000 / (1000 * 1998))) :=
  power_formula ⟨20395, 1998, 4555342, 100, 16577, 547040⟩ 1000 (by norm_num)

/-- C9: the scenario-2 reference vector with serial 400547040 decodes to
the expected record, and `power` of that record at 1000 pulses/kWh is
1845. -/
theorem real_vector_decode :
    (SparsnasDecoder.new 400547040).decode testdata2 =
      .ok ⟨20395, 1998, 4555342, 100, 16577, 547040⟩ ∧
    SparsnasPacket.power ⟨20395, 1998, 4555342, 100, 16577, 547040⟩ 1000 =
      some 1845 := by decide

/-- C10: `power` hits its division-by-zero (panic) branch exactly when the
32-bit product `pulses_per_kwh * time_between_pulses mod 2^32` is zero,
which happens for some nonzero arguments too, e.g. `pulses_per_kwh = 2^31`
with `time_between_pulses = 2`. -/
theorem power_division_guard (pkt : SparsnasPacket) (pulses_per_khw : Nat) :
    (pkt.power pulses_per_khw = none ↔
      pulses_per_khw * pkt.time_between_pulses % 4294967296 = 0) ∧
    (pkt.time_between_pulses = 2 → pkt.power 2147483648 = none) := by
  constructor
  · simp only [SparsnasPacket.power]
    split_ifs with h <;> simp [h]
  · intro h2
    simp [SparsnasPacket.power, h2]

/-- C10 witness: a record with `time_between_pulses = 2` and
`pulses_per_kwh = 2^31` reaches the division-by-zero branch. -/
theorem power_division_guard_witness :
    (SparsnasPacket.power ⟨0, 2, 0, 0, 0, 0⟩ 2147483648 = none ↔
      2147483648 * 2 % 4294967296 = 0) ∧
    SparsnasPacket.power ⟨0, 2, 0, 0, 0, 0⟩ 2147483648 = none :=
  ⟨(power_division_guard ⟨0, 2, 0, 0, 0, 0⟩ 2147483648).1,
   (power_division_guard ⟨0, 2, 0, 0, 0, 0⟩ 2147483648).2 rfl⟩
